import Mathlib

/-!
Verification development for the pm_app backend synchronization core.

The definitions below are a shallow embedding of the Python source under
`src/backend/`:

* `services/sync_job_service.py` and `repositories/sync_job_repository.py`
  (the sync-job ledger),
* `routers/sync.py` (the background execution harness and the enqueue router
  helper),
* `services/sync_service.py` (the sync orchestrator),
* `integrations/jira_client.py` (the Jira client surface relevant to the
  orchestrator),
* `integrations/precursive/models.py` (the Precursive financial value
  object and its derived computations).

Database sessions are modelled as explicit state (a list of rows), datetimes
as natural-number ticks, SQL `NULL`-able columns as `Option`, Python floats
as rationals (`ℚ`; the claims under scrutiny involve only exact small
arithmetic), and Python truthiness tests (`if x:`) as explicit truthiness
functions on `Option` values.
-/

namespace PmApp

/-- Python truthiness of an `Optional[str]`: `None` and the empty string are
falsy, every other string is truthy. -/
def strOptTruthy : Option String → Bool
  | none => false
  | some s => !(s == "")

/-- Lowercasing, modelling Python `str.lower` on the ASCII strings these
code paths compare (a character-list fold, so that it evaluates inside the
kernel). -/
def strLower (s : String) : String :=
  String.mk (s.toList.map Char.toLower)

/-- Splitter worker: fuel-indexed scan accumulating the current chunk in
reverse.  The fuel is an upper bound on the number of characters consumed,
so with `length + 1` fuel the first branch is never taken. -/
def splitOnListAux (sep : List Char) : Nat → List Char → List Char → List (List Char)
  | 0, acc, _ => [acc.reverse]
  | _ + 1, acc, [] => [acc.reverse]
  | fuel + 1, acc, c :: rest =>
      if sep.isPrefixOf (c :: rest) then
        acc.reverse :: splitOnListAux sep fuel [] ((c :: rest).drop sep.length)
      else splitOnListAux sep fuel (c :: acc) rest

/-- Python `str.split(sep)` for a nonempty separator: non-overlapping,
left-to-right, keeping empty chunks (a character-list scan, so that it
evaluates inside the kernel). -/
def strSplitOn (s sep : String) : List String :=
  if sep == "" then [s]
  else (splitOnListAux sep.toList (s.toList.length + 1) [] s.toList).map String.mk

/-- Python `str.rstrip("/")`: drop trailing slash characters. -/
def strRStripSlash (s : String) : String :=
  String.mk ((s.toList.reverse.dropWhile (· == '/')).reverse)

/-- Numeric value of an all-digit character list. -/
def digitsToNat (cs : List Char) : Nat :=
  cs.foldl (fun n c => n * 10 + (c.toNat - 48)) 0

/-- Python truthiness of an `Optional[float]` (modelled as `Option ℚ`):
`None` and `0.0` are falsy. -/
def qOptTruthy : Option ℚ → Bool
  | none => false
  | some x => !(x == 0)

/-! ## Sync job ledger

From `models/sync_job.py`, `repositories/sync_job_repository.py` and
`services/sync_job_service.py`.
-/

/-- `SyncJobType` from `models/sync_job.py`. -/
inductive SyncJobType where
  | jira
  | precursive
  | full
deriving DecidableEq, Repr

/-- `SyncJobStatus` from `models/sync_job.py`. -/
inductive SyncJobStatus where
  | queued
  | running
  | succeeded
  | failed
deriving DecidableEq, Repr

/-- The `SyncJob` row from `models/sync_job.py` (ids and timestamps are
abstracted to naturals; the incremental cursor is unused by the ledger
operations and omitted). -/
structure SyncJob where
  id : Nat
  project_id : Nat
  job_type : SyncJobType
  status : SyncJobStatus
  created_at : Nat
  started_at : Option Nat := none
  completed_at : Option Nat := none
  requested_by_user_id : Option Nat := none
  error : Option String := none
  items_synced : Nat := 0
deriving DecidableEq, Repr

/-- The persistent ledger state: the `syncjob` table plus a fresh-id counter
standing in for primary-key generation. -/
structure LedgerStore where
  jobs : List SyncJob
  nextId : Nat
deriving DecidableEq, Repr

/-- A status counts as active when it is `queued` or `running`
(the `status.in_([QUEUED, RUNNING])` filter in
`SyncJobRepository.get_running_job`). -/
def isActiveStatus : SyncJobStatus → Bool
  | .queued => true
  | .running => true
  | _ => false

/-- A status is terminal when it is `succeeded` or `failed`. -/
def isTerminalStatus : SyncJobStatus → Bool
  | .succeeded => true
  | .failed => true
  | _ => false

/-- Row filter of `SyncJobRepository.get_running_job`: same project, same
job type, status in queued/running. -/
def matchesActive (project_id : Nat) (job_type : SyncJobType) (j : SyncJob) : Bool :=
  j.project_id == project_id && j.job_type == job_type && isActiveStatus j.status

/-- `SyncJobRepository.get_running_job`: first row of the active-job filter
(`session.exec(statement).first()`). -/
def get_running_job (st : LedgerStore) (project_id : Nat) (job_type : SyncJobType) :
    Option SyncJob :=
  (st.jobs.filter (matchesActive project_id job_type)).head?

/-- `BaseRepository.get_by_id` for sync jobs: lookup by primary key. -/
def get_job_by_id (st : LedgerStore) (job_id : Nat) : Option SyncJob :=
  (st.jobs.filter (fun j => j.id == job_id)).head?

/-- `SyncJobService.create_job`: insert a new job in `queued` state with a
fresh primary key and `created_at` timestamp; returns the job and the new
store (`session.add`/`commit`/`refresh`). -/
def create_job (st : LedgerStore) (project_id : Nat) (job_type : SyncJobType)
    (user_id : Nat) (now : Nat) : SyncJob × LedgerStore :=
  let job : SyncJob :=
    { id := st.nextId
      project_id := project_id
      job_type := job_type
      status := .queued
      created_at := now
      requested_by_user_id := some user_id }
  (job, { jobs := st.jobs ++ [job], nextId := st.nextId + 1 })

/-- Update every row with the given primary key (the Python code mutates the
session-tracked object and commits; keys are unique in a real table). -/
def updateJobIn (st : LedgerStore) (job_id : Nat) (f : SyncJob → SyncJob) : LedgerStore :=
  { st with jobs := st.jobs.map (fun j => if j.id == job_id then f j else j) }

/-- Field updates of `SyncJobService.mark_running` on the job row. -/
def apply_mark_running (now : Nat) (j : SyncJob) : SyncJob :=
  { j with status := .running, started_at := some now }

/-- Field updates of `SyncJobService.mark_succeeded` on the job row. -/
def apply_mark_succeeded (items now : Nat) (j : SyncJob) : SyncJob :=
  { j with status := .succeeded, items_synced := items, completed_at := some now }

/-- Field updates of `SyncJobService.mark_failed` on the job row. -/
def apply_mark_failed (err : String) (items now : Nat) (j : SyncJob) : SyncJob :=
  { j with status := .failed, error := some err, items_synced := items,
           completed_at := some now }

/-- `SyncJobService.mark_running`: status `running`, `started_at` stamped. -/
def mark_running (st : LedgerStore) (job_id : Nat) (now : Nat) : LedgerStore :=
  updateJobIn st job_id (apply_mark_running now)

/-- `SyncJobService.mark_succeeded`: status `succeeded`, `items_synced` and
`completed_at` stamped. -/
def mark_succeeded (st : LedgerStore) (job_id : Nat) (items : Nat) (now : Nat) :
    LedgerStore :=
  updateJobIn st job_id (apply_mark_succeeded items now)

/-- `SyncJobService.mark_failed`: status `failed`, error string, `items_synced`
and `completed_at` stamped. -/
def mark_failed (st : LedgerStore) (job_id : Nat) (err : String) (items : Nat)
    (now : Nat) : LedgerStore :=
  updateJobIn st job_id (apply_mark_failed err items now)

/-- `SyncJobService.enqueue_or_get_existing`: return an existing queued/running
job of the same (project, kind) with the dedup flag `true`, otherwise create a
new queued job and return it with the flag `false`. -/
def enqueue_or_get_existing (st : LedgerStore) (project_id : Nat)
    (job_type : SyncJobType) (user_id : Nat) (now : Nat) :
    (SyncJob × Bool) × LedgerStore :=
  match get_running_job st project_id job_type with
  | some existing => ((existing, true), st)
  | none =>
      let (job, st') := create_job st project_id job_type user_id now
      ((job, false), st')

/-- The router helper `enqueue_sync_job` from `routers/sync.py`: enqueue or
deduplicate, and schedule a background task (`background_tasks.add_task`)
only for a freshly created job. The scheduled-task list models the
`BackgroundTasks` queue entries added by this call. -/
def enqueue_sync_job (st : LedgerStore) (project_id : Nat) (job_type : SyncJobType)
    (user_id : Nat) (now : Nat) :
    (SyncJob × Bool) × LedgerStore × List (Nat × SyncJobType) :=
  let ((job, deduplicated), st') :=
    enqueue_or_get_existing st project_id job_type user_id now
  let tasks := if deduplicated then [] else [(job.id, job_type)]
  ((job, deduplicated), st', tasks)

/-- A ledger store is well formed when every stored primary key is below the
fresh-id counter; `create_job` preserves this and every store built from the
empty store satisfies it. -/
def LedgerStore.WF (st : LedgerStore) : Prop :=
  ∀ j ∈ st.jobs, j.id < st.nextId

/-! ## Jira client surface

From `integrations/jira_client.py`.
-/

/-- The fields declared by the `JiraIssue` dataclass in
`integrations/jira_client.py` (lines 20-31).  Note that `id` is not among
them: the dataclass has `key` but no `id` attribute. -/
def jiraIssueFieldNames : List String :=
  ["key", "summary", "status", "issue_type", "assignee", "priority",
   "created", "updated", "due_date"]

/-- The `JiraIssue` dataclass, with exactly the declared fields. -/
structure JiraIssue where
  key : String
  summary : String
  status : String
  issue_type : String
  assignee : Option String := none
  priority : Option String := none
  created : String := ""
  updated : String := ""
  due_date : Option String := none
deriving DecidableEq, Repr

/-- The parameters accepted by `JiraClient.get_project_issues`
(`self` excluded): `project_key` and `max_results` only. -/
def getProjectIssuesParamNames : List String := ["project_key", "max_results"]

/-- The keyword arguments `SyncService.sync_jira_data` passes to
`jira.get_project_issues` at lines 280-284 (the project key is passed
positionally). -/
def syncServiceGetIssuesKwargNames : List String := ["max_results", "updated_since"]

/-- Keywords of the call that the callee does not accept.  Python raises
`TypeError` when this list is nonempty. -/
def unexpectedGetIssuesKwargs : List String :=
  syncServiceGetIssuesKwargNames.filter (fun n => !(getProjectIssuesParamNames.contains n))

/-- The JQL string built by `JiraClient.get_project_issues` (line 216).  It
filters on the project only; no updated-since clause exists anywhere in the
client. -/
def get_project_issues_jql (project_key : String) : String :=
  "project = " ++ project_key ++ " ORDER BY created DESC"

/-- Calling `get_project_issues` the way `sync_jira_data` does: the call
itself raises `TypeError` when it passes a keyword the function does not
declare; otherwise the client would return the fetched issues (modelled as an
oracle argument, since the network is outside the embedding). -/
def call_get_project_issues (fetched : List JiraIssue) : Except String (List JiraIssue) :=
  match unexpectedGetIssuesKwargs with
  | [] => .ok fetched
  | n :: _ =>
      .error ("TypeError: get_project_issues() got an unexpected keyword argument " ++ n)

/-! ## Incremental sync window

From `services/sync_service.py` lines 36-37 and 263-277.  Times are modelled
in minutes.
-/

/-- The module constant `INCREMENTAL_SYNC_BACKFILL_MINUTES` from
`sync_service.py` line 37. -/
def INCREMENTAL_SYNC_BACKFILL_MINUTES : Int := 5

/-- The cutoff computed at lines 269-271: last successful completion time
minus the backfill window. -/
def sync_cutoff (last_sync_time : Int) : Int :=
  last_sync_time - INCREMENTAL_SYNC_BACKFILL_MINUTES

/-! ## Action items and the issue upsert loop

From `models/action_item.py` and `services/sync_service.py` lines 287-353.
-/

/-- `ActionStatus` used by `models/action_item.py` via `models/__init__.py`. -/
inductive ActionStatus where
  | toDo
  | inProgress
  | complete
  | noStatus
deriving DecidableEq, Repr

/-- `Priority` used by `models/action_item.py` via `models/__init__.py`. -/
inductive Priority where
  | high
  | medium
  | low
deriving DecidableEq, Repr

/-- `SyncService._map_jira_status`: lowercased membership tests, defaulting to
`NO_STATUS` for falsy or unknown input. -/
def map_jira_status (status : Option String) : ActionStatus :=
  if !strOptTruthy status then .noStatus
  else
    let s := strLower (status.getD "")
    if ["done", "complete", "closed", "resolved"].contains s then .complete
    else if ["in progress", "in review", "qa"].contains s then .inProgress
    else if ["to do", "backlog", "open", "new", "created"].contains s then .toDo
    else .noStatus

/-- `SyncService._map_jira_priority`: lowercased membership tests, defaulting
to `MEDIUM` for falsy or unknown input. -/
def map_jira_priority (priority : Option String) : Priority :=
  if !strOptTruthy priority then .medium
  else
    let p := strLower (priority.getD "")
    if ["high", "critical", "blocker"].contains p then .high
    else if ["low", "trivial"].contains p then .low
    else .medium

/-- Gregorian leap year, as `datetime` validates dates. -/
def isLeapYear (y : Nat) : Bool :=
  (y % 4 == 0 && y % 100 != 0) || (y % 400 == 0)

/-- Days in a month, as `datetime` validates dates. -/
def daysInMonth (y m : Nat) : Nat :=
  if m == 2 then (if isLeapYear y then 29 else 28)
  else if m == 4 || m == 6 || m == 9 || m == 11 then 30
  else 31

/-- Model of `datetime.strptime(s, "%Y-%m-%d")`: four digits, dash, one or
two digits (1-12), dash, one or two digits forming a valid calendar day.
Returns the (year, month, day) triple, or `none` where Python raises
`ValueError`. -/
def parseStrptimeYMD (s : String) : Option (Nat × Nat × Nat) :=
  match strSplitOn s "-" with
  | [ys, ms, ds] =>
      if ys.length == 4 && ys.toList.all Char.isDigit
          && (ms.length == 1 || ms.length == 2) && ms.toList.all Char.isDigit
          && (ds.length == 1 || ds.length == 2) && ds.toList.all Char.isDigit then
        let y := digitsToNat ys.toList
        let m := digitsToNat ms.toList
        let d := digitsToNat ds.toList
        if 1 ≤ m && m ≤ 12 && 1 ≤ d && d ≤ daysInMonth y m then some (y, m, d)
        else none
      else none
  | _ => none

/-- The `ActionItem` row from `models/action_item.py` (primary key and
comment/relationship plumbing abstracted away; `due_date` stored as a
(year, month, day) triple). -/
structure ActionItem where
  project_id : Nat
  title : String
  status : ActionStatus := .toDo
  assignee : Option String := none
  due_date : Option (Nat × Nat × Nat) := none
  priority : Priority := .medium
  jira_id : Option String := none
  jira_key : Option String := none
  issue_type : Option String := none
deriving DecidableEq, Repr

/-- Replace the first element satisfying the predicate. -/
def updateFirstMatching {α : Type} : List α → (α → Bool) → (α → α) → List α
  | [], _, _ => []
  | a :: rest, pred, f =>
      if pred a then f a :: rest else a :: updateFirstMatching rest pred f

/-- Replace the last element satisfying the predicate (Python dict
comprehensions keep the last binding for a repeated key, and the in-place
mutation hits that object). -/
def updateLastMatching {α : Type} (l : List α) (pred : α → Bool) (f : α → α) : List α :=
  (updateFirstMatching l.reverse pred f).reverse

/-- Lookup in the `action_by_jira_key` dict built at lines 291-293: only
actions with a truthy `jira_key` enter the dict, and for a repeated key the
last one wins. -/
def action_by_jira_key (actions : List ActionItem) (key : String) : Option ActionItem :=
  ((actions.filter (fun a => strOptTruthy a.jira_key && a.jira_key == some key)).reverse).head?

/-- One iteration of the per-issue upsert loop, `sync_service.py` lines
296-353, as this revision of the source executes it.

Update branch (issue key found): lines 303-306 mutate the session-tracked
object (title, status, assignee, priority).  Line 308 then evaluates
`issue.id`; the `JiraIssue` dataclass declares no `id` attribute, so the
access raises `AttributeError`, which the per-issue handler at lines 348-353
logs and swallows.  The assignments after line 308 (`jira_key`, `due_date`)
never run; the partial mutations remain on the tracked object and are
committed with the batch.

Insert branch (no match): lines 325-335 parse the due date with errors
tolerated, then the `ActionItem(...)` constructor call at line 337 evaluates
`issue.id` among its keyword arguments and raises `AttributeError` before any
object is created, so nothing is added to the session. -/
def process_issue (actions : List ActionItem) (issue : JiraIssue) : List ActionItem :=
  match action_by_jira_key actions issue.key with
  | some _ =>
      updateLastMatching actions
        (fun a => strOptTruthy a.jira_key && a.jira_key == some issue.key)
        (fun a =>
          { a with
            title := if issue.summary == "" then a.title else issue.summary
            status := map_jira_status (some issue.status)
            assignee := issue.assignee
            priority := map_jira_priority issue.priority })
  | none => actions

/-- The whole upsert loop over a batch of fetched issues. -/
def sync_issues_loop (existing : List ActionItem) (issues : List JiraIssue) :
    List ActionItem :=
  issues.foldl process_issue existing

/-! ## Jira project key extraction

Model of the regular-expression searches at `sync_service.py` lines 230-232:
`re.search` for `/projects/([A-Z][A-Z0-9]+)`, then `/browse/([A-Z][A-Z0-9]+)`.
-/

/-- Character class `[A-Z]`. -/
def isUpperAZ (c : Char) : Bool := 'A' ≤ c && c ≤ 'Z'

/-- Character class `[A-Z0-9]`. -/
def isUpperOrDigit (c : Char) : Bool := isUpperAZ c || c.isDigit

/-- Greedy capture of `[A-Z][A-Z0-9]+` at the head of the character list
(at least two characters, first strictly uppercase). -/
def keyRunAt : List Char → Option (List Char)
  | [] => none
  | c :: rest =>
      if isUpperAZ c then
        let run := rest.takeWhile isUpperOrDigit
        if run.isEmpty then none else some (c :: run)
      else none

/-- Leftmost `re.search` for the literal marker followed by
`[A-Z][A-Z0-9]+`: at each position, if the marker matches and the capture
succeeds, return it; otherwise keep scanning one character further. -/
def searchMarkerKey (marker : List Char) : List Char → Option String
  | [] => none
  | c :: rest =>
      if marker.isPrefixOf (c :: rest) then
        match keyRunAt ((c :: rest).drop marker.length) with
        | some run => some (String.mk run)
        | none => searchMarkerKey marker rest
      else searchMarkerKey marker rest

/-- Lines 230-232: try the `/projects/KEY` pattern first, then
`/browse/KEY`. -/
def extract_jira_key (url : String) : Option String :=
  match searchMarkerKey "/projects/".toList url.toList with
  | some k => some k
  | none => searchMarkerKey "/browse/".toList url.toList

/-! ## Project state

The sync-relevant projection of `models/project.py`.  The health-indicator
and detailed financial attributes (`overrun_investment`,
`total_days_actuals`, `budgeted_days_delivery`, `budgeted_hours_delivery`,
the health indicators, `precursive_status_summary`) are assigned by
`sync_service.py` on the SQLAlchemy-instrumented instance even though
`models/project.py` declares no such columns; they are modelled here as
fields of the in-memory project state. -/
structure Project where
  id : Nat
  name : String := ""
  client_name : Option String := none
  jira_url : Option String := none
  jira_project_key : Option String := none
  jira_board_id : Option Nat := none
  sprint_goals : Option String := none
  precursive_url : Option String := none
  precursive_id : Option String := none
  total_budget : Option ℚ := none
  spent_budget : Option ℚ := none
  remaining_budget : Option ℚ := none
  currency : String := "USD"
  overrun_investment : Option ℚ := none
  total_days_actuals : Option ℚ := none
  budgeted_days_delivery : Option ℚ := none
  budgeted_hours_delivery : Option ℚ := none
  precursive_project_health : Option String := none
  precursive_time_health : Option String := none
  precursive_cost_health : Option String := none
  precursive_resources_health : Option String := none
  precursive_status_summary : Option String := none
  start_date : Option (Nat × Nat × Nat) := none
  end_date : Option (Nat × Nat × Nat) := none
deriving DecidableEq, Repr

/-- Lines 226-238 of `sync_service.py`: when the project key is falsy and a
Jira URL is present, search the URL for a key pattern and persist the first
match immediately (`session.add` + `commit`). -/
def jira_key_extract_step (p : Project) : Project :=
  if !strOptTruthy p.jira_project_key && strOptTruthy p.jira_url then
    match extract_jira_key (p.jira_url.getD "") with
    | some k => { p with jira_project_key := some k }
    | none => p
  else p

/-- `JiraSyncResult` from `schemas/sync.py`. -/
structure JiraSyncResult where
  success : Bool
  actions_count : Nat := 0
  message : Option String := none
  error : Option String := none
deriving DecidableEq, Repr

/-- `SyncService.sync_jira_data` (lines 214-380), as this revision of the
source executes it.  The board-id and sprint-goal sub-steps (lines 246-261
and 355-365) touch only `jira_board_id` and `sprint_goals`, swallow their own
failures, and are orthogonal to every property under study; they are omitted.
The incremental-window computation (lines 263-277) feeds the
`updated_since` keyword of the `get_project_issues` call at lines 280-284;
that call raises `TypeError` because the client declares no such parameter
(see `call_get_project_issues`), and the handler at lines 373-378 converts
the exception into a failed result and rolls the session back.  The `.ok`
branch transcribes lines 285-371, which this revision cannot reach. -/
def sync_jira_data (p : Project) (fetched : List JiraIssue)
    (existing : List ActionItem) : JiraSyncResult × Project × List ActionItem :=
  let p := jira_key_extract_step p
  if !strOptTruthy p.jira_project_key then
    ({ success := false, message := some "No Jira project key configured" }, p, existing)
  else
    match call_get_project_issues fetched with
    | .error msg =>
        ({ success := false, error := some msg }, p, existing)
    | .ok issues =>
        let actions := sync_issues_loop existing issues
        ({ success := true, actions_count := issues.length,
           message := some ("Synced " ++ toString issues.length ++ " actions") },
         p, actions)

/-! ## Precursive financial value object

From `integrations/precursive/models.py`.
-/

/-- The `PrecursiveFinancials` dataclass (floats as rationals). -/
structure PrecursiveFinancials where
  project_id : String
  currency : String
  remaining_budget : Option ℚ := none
  remaining_budget_org : Option ℚ := none
  total_fte_days : Option ℚ := none
  fte_day_price : Option ℚ := none
  overrun_investment : Option ℚ := none
  overrun_investment_diff : Option ℚ := none
  budgeted_days_delivery : Option ℚ := none
  budgeted_hours_delivery : Option ℚ := none
  total_days_actuals_planned : Option ℚ := none
  pm_budget : Option ℚ := none
  sa_budget : Option ℚ := none
  de_budget : Option ℚ := none
  ds_budget : Option ℚ := none
  pm_budgeted_fte : Option ℚ := none
  sa_budgeted_fte : Option ℚ := none
  de_budgeted_fte : Option ℚ := none
  ds_budgeted_fte : Option ℚ := none
  pm_actual_fte : Option ℚ := none
  sa_actual_fte : Option ℚ := none
  de_actual_fte : Option ℚ := none
  ds_actual_fte : Option ℚ := none
  pm_fte_difference : Option ℚ := none
  sa_fte_difference : Option ℚ := none
  de_fte_difference : Option ℚ := none
  ds_fte_difference : Option ℚ := none
  mobilizing_total_fte_days : Option ℚ := none
  mobilizing_overrun : Option ℚ := none
deriving DecidableEq, Repr

/-- The per-role day budgets summed by strategy 2 of `compute_total_budget`
(`sum(filter(None, [pm, sa, de, ds]))`; dropping `None` and `0.0` entries
does not change the sum of the remaining values). -/
def roleDaysSum (f : PrecursiveFinancials) : ℚ :=
  (([f.pm_budget, f.sa_budget, f.de_budget, f.ds_budget]).filterMap id).foldl (· + ·) 0

/-- `PrecursiveFinancials.compute_total_budget`: strategy 1 multiplies
`total_fte_days` by `fte_day_price` when both are present and keeps the
result only if positive; strategy 2 multiplies the per-role day sum by
`fte_day_price` when the rate is present and the sum is positive; otherwise
the result is `None`. -/
def compute_total_budget (f : PrecursiveFinancials) : Option ℚ :=
  let strat1 : Option ℚ :=
    match f.total_fte_days, f.fte_day_price with
    | some d, some price => let computed := d * price
                            if 0 < computed then some computed else none
    | _, _ => none
  match strat1 with
  | some c => some c
  | none =>
      match f.fte_day_price with
      | some price =>
          let role_days := roleDaysSum f
          if 0 < role_days then some (role_days * price) else none
      | none => none

/-- `PrecursiveFinancials.compute_spent_budget`: total minus remaining when
both are known, else `None`. -/
def compute_spent_budget (f : PrecursiveFinancials) : Option ℚ :=
  match compute_total_budget f, f.remaining_budget with
  | some total, some remaining => some (total - remaining)
  | _, _ => none

/-- The seventeen fields tested by `has_any_financial_data` (lines 133-155),
in source order. -/
def financialSignalFields (f : PrecursiveFinancials) : List (Option ℚ) :=
  [f.remaining_budget, f.total_fte_days, f.fte_day_price,
   f.overrun_investment, f.pm_budget, f.sa_budget, f.de_budget, f.ds_budget,
   f.total_days_actuals_planned,
   f.pm_budgeted_fte, f.sa_budgeted_fte, f.de_budgeted_fte, f.ds_budgeted_fte,
   f.pm_actual_fte, f.sa_actual_fte, f.de_actual_fte, f.ds_actual_fte]

/-- `PrecursiveFinancials.has_any_financial_data`: Python `any(...)` over the
listed fields, i.e. a truthiness test, so a field holding exactly `0.0`
counts as no data. -/
def has_any_financial_data (f : PrecursiveFinancials) : Bool :=
  (financialSignalFields f).any qOptTruthy

/-! ## Precursive project, risks and the delivery sync

From `integrations/precursive/models.py`, `models/risk.py`,
`integrations/salesforce_precursive_client.py` and
`services/sync_service.py` lines 382-624.
-/

/-- The `PrecursiveProject` dataclass. -/
structure PrecursiveProject where
  id : String
  name : String
  status : Option String := none
  project_category : Option String := none
  delivery_start_date : Option String := none
  delivery_end_date : Option String := none
  client_name : Option String := none
  project_health : Option String := none
  time_health : Option String := none
  cost_health : Option String := none
  resources_health : Option String := none
  overall_status_summary : Option String := none
  risk_level : Option String := none
  risk_description : Option String := none
deriving DecidableEq, Repr

/-- The `PrecursiveRisk` dataclass. -/
structure PrecursiveRisk where
  summary : String
  description : String
  category : Option String := none
  impact_rationale : Option String := none
  date_identified : Option String := none
  probability : String
  impact : String
  status : String
  mitigation_plan : Option String := none
deriving DecidableEq, Repr

/-- `RiskProbability` from `models/__init__.py`. -/
inductive RiskProbability where
  | high
  | medium
  | low
deriving DecidableEq, Repr

/-- `RiskImpact` from `models/__init__.py`. -/
inductive RiskImpact where
  | high
  | medium
  | low
deriving DecidableEq, Repr

/-- `RiskStatus` from `models/__init__.py`. -/
inductive RiskStatus where
  | open
  | mitigated
  | closed
deriving DecidableEq, Repr

/-- The `Risk` row from `models/risk.py` (primary key, resolution and
reopening bookkeeping abstracted away; they are untouched by the sync). -/
structure Risk where
  project_id : Nat
  title : String := ""
  description : String
  category : Option String := none
  impact_rationale : Option String := none
  date_identified : Option (Nat × Nat × Nat) := none
  probability : RiskProbability
  impact : RiskImpact
  status : RiskStatus := .open
  mitigation_plan : Option String := none
  source : Option String := some "manual"
deriving DecidableEq, Repr

/-- Infix test on character lists: the needle is a prefix of some suffix. -/
def listInfixTest (needle : List Char) : List Char → Bool
  | [] => needle.isEmpty
  | c :: rest => needle.isPrefixOf (c :: rest) || listInfixTest needle rest

/-- Substring membership, modelling the Python `in` operator on strings. -/
def strContains (hay needle : String) : Bool :=
  listInfixTest needle.toList hay.toList

/-- `SyncService._map_risk_probability`. -/
def map_risk_probability (prob : String) : RiskProbability :=
  let p := strLower prob
  if strContains p "high" then .high
  else if strContains p "low" then .low
  else .medium

/-- `SyncService._map_risk_impact`. -/
def map_risk_impact (impact : String) : RiskImpact :=
  let i := strLower impact
  if strContains i "high" then .high
  else if strContains i "low" then .low
  else .medium

/-- `SyncService._map_risk_status`. -/
def map_risk_status (status : String) : RiskStatus :=
  if status == "" then .open
  else
    let s := strLower status
    if ["closed", "resolved"].contains s then .closed
    else if ["mitigated", "mitigation"].contains s then .mitigated
    else .open

/-- `SyncService._map_risk_level_to_probability`. -/
def map_risk_level_to_probability (risk_level : String) : RiskProbability :=
  if risk_level == "" then .medium
  else
    let level := strLower risk_level
    if strContains level "high" then .high
    else if strContains level "low" then .low
    else .medium

/-- `SyncService._map_risk_level_to_impact`. -/
def map_risk_level_to_impact (risk_level : String) : RiskImpact :=
  if risk_level == "" then .medium
  else
    let level := strLower risk_level
    if strContains level "high" then .high
    else if strContains level "low" then .low
    else .medium

/-- The Salesforce id pattern of
`SalesforcePrecursiveClient._validate_salesforce_id`:
15 to 18 alphanumeric characters. -/
def validSalesforceId (s : String) : Bool :=
  15 ≤ s.length && s.length ≤ 18 && s.toList.all Char.isAlphanum

/-- `SalesforcePrecursiveClient.get_project_by_id`: validate the id and look
the record up (the remote query is an oracle argument).  An invalid id raises
`IntegrationError` in the source; every caller modelled here wraps the call
in a try/except that discards the failure, which coincides with the `none`
result. -/
def get_project_by_id (lookup : String → Option PrecursiveProject)
    (project_id : String) : Option PrecursiveProject :=
  if validSalesforceId project_id then lookup project_id else none

/-- `SalesforcePrecursiveClient.get_project_by_url` (lines 263-303): extract
a candidate Salesforce id from one of the three known URL shapes, then fetch
the record by id. -/
def get_project_by_url (lookup : String → Option PrecursiveProject)
    (precursive_url : String) : Option PrecursiveProject :=
  if precursive_url == "" then none
  else
    let candidate : Option String :=
      if strContains precursive_url "/r/preempt__PrecursiveProject__c/" then
        match (strSplitOn precursive_url "/r/preempt__PrecursiveProject__c/")[1]? with
        | some tail => some ((strSplitOn tail "/").headD "")
        | none => none
      else if strContains precursive_url "/r/pse__Proj__c/" then
        match (strSplitOn precursive_url "/r/pse__Proj__c/")[1]? with
        | some tail => some ((strSplitOn tail "/").headD "")
        | none => none
      else if strContains precursive_url "my.salesforce.com/" then
        let parts := strSplitOn (strRStripSlash precursive_url) "/"
        match parts.getLast? with
        | some cand =>
            if (cand.length == 15 || cand.length == 18) && cand.toList.all Char.isAlphanum
            then some cand else none
        | none => none
      else none
    match candidate with
    | some pid => if pid == "" then none else get_project_by_id lookup pid
    | none => none

/-- First half of `SyncService._sync_precursive_dates`: set `start_date` when
the remote string is truthy and the local date is unset; an unparseable
string is logged and skipped. -/
def set_parsed_start_date (p : Project) (sOpt : Option String) : Project :=
  match sOpt with
  | some s =>
      if !(s == "") && p.start_date.isNone then
        match parseStrptimeYMD s with
        | some d => { p with start_date := some d }
        | none => p
      else p
  | none => p

/-- Second half of `SyncService._sync_precursive_dates`: the same for
`end_date`. -/
def set_parsed_end_date (p : Project) (sOpt : Option String) : Project :=
  match sOpt with
  | some s =>
      if !(s == "") && p.end_date.isNone then
        match parseStrptimeYMD s with
        | some d => { p with end_date := some d }
        | none => p
      else p
  | none => p

/-- `SyncService._sync_precursive_dates`: copy delivery dates onto the
project when the remote string is truthy and the local date is unset. -/
def sync_precursive_dates (p : Project) (pp : PrecursiveProject) : Project :=
  set_parsed_end_date (set_parsed_start_date p pp.delivery_start_date)
    pp.delivery_end_date

/-- `SyncService._sync_precursive_health_indicators`: copy the five health
fields unconditionally. -/
def sync_precursive_health_indicators (p : Project) (pp : PrecursiveProject) : Project :=
  { p with
    precursive_project_health := pp.project_health
    precursive_time_health := pp.time_health
    precursive_cost_health := pp.cost_health
    precursive_resources_health := pp.resources_health
    precursive_status_summary := pp.overall_status_summary }

/-- Step 1 of `sync_precursive_data` (lines 387-412): when `precursive_id`
is falsy and a URL is truthy, resolve the remote project from the URL; on
success store its id and opportunistically copy name, client name and
dates.  Failures of the remote call are swallowed. -/
def precursive_resolve_step (p : Project)
    (lookup : String → Option PrecursiveProject) :
    Project × Option PrecursiveProject :=
  if !strOptTruthy p.precursive_id && strOptTruthy p.precursive_url then
    match get_project_by_url lookup (p.precursive_url.getD "") with
    | some pp =>
        let p := { p with precursive_id := some pp.id }
        let p := if !(pp.name == "") && p.name == "" then { p with name := pp.name } else p
        let p := if strOptTruthy pp.client_name then { p with client_name := pp.client_name } else p
        let p := sync_precursive_dates p pp
        (p, some pp)
    | none => (p, none)
  else (p, none)

/-- Lines 414-427 of `sync_precursive_data`: when `precursive_id` is truthy
and no record was fetched yet, fetch the details by id and copy dates and
client name.  The identifier itself is never reassigned here. -/
def precursive_details_step (p : Project) (pp0 : Option PrecursiveProject)
    (lookup : String → Option PrecursiveProject) :
    Project × Option PrecursiveProject :=
  if strOptTruthy p.precursive_id && pp0.isNone then
    match get_project_by_id lookup (p.precursive_id.getD "") with
    | some pp =>
        let p := sync_precursive_dates p pp
        let p := if strOptTruthy pp.client_name then { p with client_name := pp.client_name } else p
        (p, some pp)
    | none => (p, pp0)
  else (p, pp0)

/-- Step 2 of `sync_precursive_data` (lines 434-516): apply fetched
financials to the cached project fields.  Returns the updated project, the
`financials_updated` flag and the message set by this step.  When no
financials were fetched, or the record carries no truthy financial signal,
nothing changes. -/
def financial_step (p : Project) (financials : Option PrecursiveFinancials) :
    Project × Bool × Option String :=
  match financials with
  | none => (p, false, none)
  | some f =>
      if has_any_financial_data f then
        let computed_total := compute_total_budget f
        let computed_spent := compute_spent_budget f
        let cond1 : Bool :=
          match computed_total with
          | some t => decide (0 < t)
          | none => false
        let pu1 : Project × Bool :=
          if cond1 then
            let p1 := { p with total_budget := computed_total }
            let p2 :=
              match computed_spent with
              | some s => { p1 with spent_budget := some s }
              | none => p1
            let p3 :=
              match f.remaining_budget with
              | some r => { p2 with remaining_budget := some r }
              | none => p2
            (p3, true)
          else
            match f.remaining_budget with
            | some r => ({ p with remaining_budget := some r }, true)
            | none => (p, false)
        let pu2 : Project × Bool :=
          match f.overrun_investment with
          | some v => ({ pu1.1 with overrun_investment := some v }, true)
          | none => pu1
        let pu3 : Project × Bool :=
          match f.total_days_actuals_planned with
          | some v => ({ pu2.1 with total_days_actuals := some v }, true)
          | none => pu2
        let pu4 : Project × Bool :=
          match f.budgeted_days_delivery with
          | some v => ({ pu3.1 with budgeted_days_delivery := some v }, true)
          | none => pu3
        let pu5 : Project × Bool :=
          match f.budgeted_hours_delivery with
          | some v => ({ pu4.1 with budgeted_hours_delivery := some v }, true)
          | none => pu4
        if pu5.2 then
          ({ pu5.1 with currency := f.currency }, true,
           some "Synced financials from Precursive")
        else (pu5.1, false, none)
      else (p, false, none)

/-- `SyncService._sync_precursive_embedded_risk`: upsert the single
project-level risk carried on the remote project, matched by the reserved
source tag "precursive".  Returns the new risk list and the count (0 or 1). -/
def sync_precursive_embedded_risk (p : Project) (risks : List Risk)
    (pp : PrecursiveProject) (now : Nat × Nat × Nat) : List Risk × Nat :=
  if !strOptTruthy pp.risk_level then (risks, 0)
  else
    let level := pp.risk_level.getD ""
    let description :=
      match pp.risk_description with
      | some d => if d == "" then "Project-level risk from Precursive" else d
      | none => "Project-level risk from Precursive"
    let probability := map_risk_level_to_probability level
    let impact := map_risk_level_to_impact level
    let pred := fun (r : Risk) => r.project_id == p.id && r.source == some "precursive"
    match (risks.filter pred).head? with
    | some _ =>
        (updateFirstMatching risks pred
          (fun r => { r with description := description, probability := probability,
                             impact := impact }), 1)
    | none =>
        (risks ++
          [{ project_id := p.id
             title := "Overall Project Risk"
             description := description
             probability := probability
             impact := impact
             status := .open
             source := some "precursive"
             date_identified := some now }], 1)

/-- One iteration of the enumerable-risk upsert (lines 540-597): match an
existing risk of the project by title, update it in place, otherwise insert
a new one (the `Risk` model defaults `source` to "manual"). -/
def upsert_precursive_risk (pid : Nat) (now : Nat × Nat × Nat)
    (risks : List Risk) (rd : PrecursiveRisk) : List Risk :=
  let pred := fun (r : Risk) => r.project_id == pid && r.title == rd.summary
  match (risks.filter pred).head? with
  | some _ =>
      updateFirstMatching risks pred (fun r =>
        { r with
          description := rd.description
          probability := map_risk_probability rd.probability
          impact := map_risk_impact rd.impact
          status := map_risk_status rd.status
          mitigation_plan := rd.mitigation_plan
          category := rd.category
          impact_rationale := rd.impact_rationale
          date_identified :=
            if strOptTruthy rd.date_identified then
              match parseStrptimeYMD (rd.date_identified.getD "") with
              | some d => some d
              | none => some now
            else r.date_identified })
  | none =>
      let date_identified :=
        if strOptTruthy rd.date_identified then
          match parseStrptimeYMD (rd.date_identified.getD "") with
          | some d => some d
          | none => some now
        else some now
      risks ++
        [{ project_id := pid
           title := rd.summary
           description := rd.description
           probability := map_risk_probability rd.probability
           impact := map_risk_impact rd.impact
           status := map_risk_status rd.status
           mitigation_plan := rd.mitigation_plan
           category := rd.category
           impact_rationale := rd.impact_rationale
           date_identified := date_identified }]

/-- Step 3 of `sync_precursive_data` (lines 518-614): sync the embedded
project-level risk, then the enumerable remote risk list; when neither
source yielded anything, report the count of risks already stored for the
project.  No branch fabricates data. -/
def risk_step (p : Project) (risks : List Risk) (pp : Option PrecursiveProject)
    (risks_data : List PrecursiveRisk) (msg : Option String)
    (now : Nat × Nat × Nat) : List Risk × Nat × Option String :=
  let step1 : List Risk × Nat :=
    match pp with
    | some q => if strOptTruthy q.risk_level
                then sync_precursive_embedded_risk p risks q now
                else (risks, 0)
    | none => (risks, 0)
  let risks1 := step1.1
  let risks2 :=
    if risks_data.isEmpty then risks1
    else risks_data.foldl (upsert_precursive_risk p.id now) risks1
  let risks_synced := step1.2 + risks_data.length
  if 0 < risks_synced then
    (risks2, risks_synced,
     if !strOptTruthy msg then some "Synced risks from Precursive" else msg)
  else
    let existing := risks2.filter (fun r => r.project_id == p.id)
    (risks2, existing.length,
     if !existing.isEmpty && !strOptTruthy msg then
       some ("Found " ++ toString existing.length ++ " existing risks")
     else msg)

/-- `PrecursiveSyncResult` from `schemas/sync.py`. -/
structure PrecursiveSyncResult where
  success : Bool
  financials_updated : Bool := false
  risks_count : Nat := 0
  message : Option String := none
  error : Option String := none
deriving DecidableEq, Repr

/-- `SyncService.sync_precursive_data` (lines 382-624).  The remote calls are
oracle arguments: `lookup` answers the Salesforce record queries,
`fetched_financials` is what `get_project_financials` would return and
`fetched_risks` what `get_project_risks` would return; both are consulted
only when `precursive_id` is truthy, as in the source.  Remote failures are
swallowed inside each step in the source; the `errors` list of lines
516/617 collects only unexpected exceptions, which the embedding has none
of, so `success` remains true and `error` empty. -/
def sync_precursive_data (p : Project) (risks : List Risk)
    (lookup : String → Option PrecursiveProject)
    (fetched_financials : Option PrecursiveFinancials)
    (fetched_risks : List PrecursiveRisk) (now : Nat × Nat × Nat) :
    PrecursiveSyncResult × Project × List Risk :=
  let r1 := precursive_resolve_step p lookup
  let r2 := precursive_details_step r1.1 r1.2 lookup
  let p2 := r2.1
  let pp := r2.2
  let p3 :=
    match pp with
    | some q => sync_precursive_health_indicators p2 q
    | none => p2
  let financials := if strOptTruthy p3.precursive_id then fetched_financials else none
  let fin := financial_step p3 financials
  let p4 := fin.1
  let risks_data := if strOptTruthy p4.precursive_id then fetched_risks else []
  let rk := risk_step p4 risks pp risks_data fin.2.2 now
  ({ success := true
     financials_updated := fin.2.1
     risks_count := rk.2.1
     message := rk.2.2 }, p4, rk.1)

/-! ## Background execution harness

From `routers/sync.py` lines 43-121 (`run_sync_job`).
-/

/-- What the orchestration routine call inside `run_sync_job` produced: the
result value of the matching sync routine, or the exception it raised
(`str(e)` of the caught exception). -/
inductive OrchOutcome where
  | jiraDone (r : JiraSyncResult)
  | precursiveDone (r : PrecursiveSyncResult)
  | fullDone (jr : JiraSyncResult) (pr : PrecursiveSyncResult)
  | raised (msg : String)
deriving DecidableEq, Repr

/-- The `error_message` local of `run_sync_job` after the try block: per
branch, the sub-result error is kept only when truthy (`if result.error:`);
for a full sync the truthy sub-errors are labelled and joined; a raised
exception stores `str(e)` unconditionally. -/
def harness_error_message : OrchOutcome → Option String
  | .jiraDone r => if strOptTruthy r.error then r.error else none
  | .precursiveDone r => if strOptTruthy r.error then r.error else none
  | .fullDone jr pr =>
      if strOptTruthy jr.error || strOptTruthy pr.error then
        let errs :=
          (if strOptTruthy jr.error then ["Jira: " ++ jr.error.getD ""] else []) ++
          (if strOptTruthy pr.error then ["Precursive: " ++ pr.error.getD ""] else [])
        some (String.intercalate "; " errs)
      else none
  | .raised _ => none

/-- For a raised exception `error_message` is assigned `str(e)` directly
(line 108), bypassing the truthiness filter of the result branches. -/
def harness_error_message_total : OrchOutcome → Option String
  | .raised msg => some msg
  | o => harness_error_message o

/-- The `items_synced` local of `run_sync_job`: per-kind counts, still 0 when
the routine raised before returning. -/
def harness_items_synced : OrchOutcome → Nat
  | .jiraDone r => r.actions_count
  | .precursiveDone r => r.risks_count
  | .fullDone jr pr => jr.actions_count + pr.risks_count
  | .raised _ => 0

/-- `run_sync_job`: look the job up (silently return when absent), mark it
running, run the orchestration routine (its outcome is an argument, the
routine itself being the orchestrator modelled above), then mark the job
failed when `error_message` is truthy and succeeded otherwise. -/
def run_sync_job (st : LedgerStore) (job_id : Nat) (outcome : OrchOutcome)
    (t_run t_done : Nat) : LedgerStore :=
  match get_job_by_id st job_id with
  | none => st
  | some _ =>
      let st1 := mark_running st job_id t_run
      let em := harness_error_message_total outcome
      let items := harness_items_synced outcome
      if strOptTruthy em then mark_failed st1 job_id (em.getD "") items t_done
      else mark_succeeded st1 job_id items t_done

/-! ## Support definitions for the stated properties -/

/-- Rank of a status along the queued to running to terminal progression. -/
def statusRank : SyncJobStatus → Nat
  | .queued => 0
  | .running => 1
  | .succeeded => 2
  | .failed => 2

/-- The optional terminal ledger operation a job receives: exactly one of
`mark_succeeded` or `mark_failed`. -/
inductive TerminalChoice where
  | succeed (items t : Nat)
  | fail (err : String) (items t : Nat)
deriving DecidableEq, Repr

/-- Apply the chosen terminal mark to a job row. -/
def apply_terminal (j : SyncJob) : TerminalChoice → SyncJob
  | .succeed items t => apply_mark_succeeded items t j
  | .fail err items t => apply_mark_failed err items t j

/-- The successive states of one job under the operation sequences the system
performs: `create_job`, then at most one `mark_running`, then at most one
terminal mark. -/
def ledger_job_trace (pid : Nat) (k : SyncJobType) (uid t0 : Nat)
    (running : Option Nat) (fin : Option TerminalChoice) : List SyncJob :=
  let j0 := (create_job { jobs := [], nextId := 0 } pid k uid t0).1
  match running, fin with
  | none, none => [j0]
  | some t, none => [j0, apply_mark_running t j0]
  | none, some op => [j0, apply_terminal j0 op]
  | some t, some op =>
      [j0, apply_mark_running t j0, apply_terminal (apply_mark_running t j0) op]

/-- The failure condition as amended for the harness claim: some sub-result
carries a truthy (non-null, non-empty) error string, or the routine raised
with a non-empty message. -/
def amended_fail_condition : OrchOutcome → Bool
  | .jiraDone r => strOptTruthy r.error
  | .precursiveDone r => strOptTruthy r.error
  | .fullDone jr pr => strOptTruthy jr.error || strOptTruthy pr.error
  | .raised m => !(m == "")

/-! ## Theorems -/

section HelperLemmas

/-- Replacing rows by primary key leaves rows with other ids untouched. -/
theorem map_update_id_noop (jobs : List SyncJob) (i : Nat) (f : SyncJob → SyncJob)
    (hid : ∀ j ∈ jobs, j.id ≠ i) :
    jobs.map (fun j => if j.id == i then f j else j) = jobs := by
  induction jobs with
  | nil => rfl
  | cons a rest ih =>
      have ha : a.id ≠ i := hid a (List.mem_cons_self a rest)
      have hrest := ih (fun j hj => hid j (List.mem_cons_of_mem a hj))
      rw [List.map_cons, hrest, if_neg (by simp [ha])]

/-- Primary-key lookup after a keyed update sees the updated row, provided
the update preserves the key. -/
theorem head_filter_map_update (jobs : List SyncJob) (i : Nat)
    (f : SyncJob → SyncJob) (hf : ∀ j, (f j).id = j.id) :
    ((jobs.map (fun j => if j.id == i then f j else j)).filter
        (fun j => j.id == i)).head?
      = ((jobs.filter (fun j => j.id == i)).head?).map f := by
  induction jobs with
  | nil => rfl
  | cons a rest ih =>
      by_cases ha : a.id = i
      · have hb : (a.id == i) = true := beq_iff_eq.mpr ha
        have hfb : ((f a).id == i) = true := beq_iff_eq.mpr (by rw [hf a]; exact ha)
        rw [List.map_cons, if_pos hb,
          @List.filter_cons_of_pos SyncJob (fun j => j.id == i) (f a) _ hfb,
          @List.filter_cons_of_pos SyncJob (fun j => j.id == i) a _ hb]
        rfl
      · have hb : (a.id == i) = false := beq_eq_false_iff_ne.mpr ha
        rw [List.map_cons, if_neg (by simp [hb]),
          @List.filter_cons_of_neg SyncJob (fun j => j.id == i) a _ (by simp [hb]),
          @List.filter_cons_of_neg SyncJob (fun j => j.id == i) a _ (by simp [hb])]
        exact ih

/-- Store-level version of `head_filter_map_update`. -/
theorem get_job_by_id_updateJobIn (st : LedgerStore) (i : Nat)
    (f : SyncJob → SyncJob) (hf : ∀ j, (f j).id = j.id) :
    get_job_by_id (updateJobIn st i f) i = (get_job_by_id st i).map f := by
  unfold get_job_by_id updateJobIn
  exact head_filter_map_update st.jobs i f hf

/-- The truthiness of the absent string. -/
theorem strOptTruthy_none : strOptTruthy none = false := rfl

/-- A string with positive length is distinct from the empty string. -/
theorem str_ne_empty (s : String) (h : 0 < s.length) : s ≠ "" := by
  intro he
  rw [he] at h
  simp at h

/-- Appending to a nonempty string yields a nonempty string. -/
theorem str_append_ne_empty (s t : String) (h : 0 < s.length) : s ++ t ≠ "" := by
  apply str_ne_empty
  rw [String.length_append]
  omega

/-- The truthiness of the harness error message coincides with the amended
failure condition. -/
theorem strOptTruthy_harness_error (o : OrchOutcome) :
    strOptTruthy (harness_error_message_total o) = amended_fail_condition o := by
  cases o with
  | jiraDone r =>
      by_cases hr : strOptTruthy r.error = true <;>
        simp [harness_error_message_total, harness_error_message,
          amended_fail_condition, hr, strOptTruthy_none]
  | precursiveDone r =>
      by_cases hr : strOptTruthy r.error = true <;>
        simp [harness_error_message_total, harness_error_message,
          amended_fail_condition, hr, strOptTruthy_none]
  | fullDone jr pr =>
      by_cases hj : strOptTruthy jr.error = true
      · by_cases hp : strOptTruthy pr.error = true
        · have hne : ("Jira: " ++ jr.error.getD "") ++ "; "
              ++ ("Precursive: " ++ pr.error.getD "") ≠ "" := by
            rw [String.append_assoc, String.append_assoc]
            exact str_append_ne_empty _ _ (by decide)
          simp only [harness_error_message_total, harness_error_message,
            amended_fail_condition, hj, hp]
          simp only [Bool.true_or, List.singleton_append, if_true, ite_true]
          rw [show String.intercalate "; "
                ["Jira: " ++ jr.error.getD "", "Precursive: " ++ pr.error.getD ""]
              = ("Jira: " ++ jr.error.getD "") ++ "; "
                ++ ("Precursive: " ++ pr.error.getD "") from rfl]
          simp [strOptTruthy, hne]
        · have hpb : strOptTruthy pr.error = false := by simpa using hp
          have hne : ("Jira: " ++ jr.error.getD "") ≠ "" :=
            str_append_ne_empty _ _ (by decide)
          simp only [harness_error_message_total, harness_error_message,
            amended_fail_condition, hj, hpb]
          simp only [Bool.true_or, Bool.or_false, Bool.false_eq_true,
            List.append_nil, if_true, ite_true, if_false, ite_false]
          rw [show String.intercalate "; " ["Jira: " ++ jr.error.getD ""]
              = "Jira: " ++ jr.error.getD "" from rfl]
          simp [strOptTruthy, hne]
      · have hjb : strOptTruthy jr.error = false := by simpa using hj
        by_cases hp : strOptTruthy pr.error = true
        · have hne : ("Precursive: " ++ pr.error.getD "") ≠ "" :=
            str_append_ne_empty _ _ (by decide)
          simp only [harness_error_message_total, harness_error_message,
            amended_fail_condition, hjb, hp]
          simp only [Bool.or_true, Bool.false_or, Bool.false_eq_true,
            List.nil_append, if_true, ite_true, if_false, ite_false]
          rw [show String.intercalate "; " ["Precursive: " ++ pr.error.getD ""]
              = "Precursive: " ++ pr.error.getD "" from rfl]
          simp [strOptTruthy, hne]
        · have hpb : strOptTruthy pr.error = false := by simpa using hp
          simp [harness_error_message_total, harness_error_message,
            amended_fail_condition, hjb, hpb, strOptTruthy_none]
  | raised m =>
      simp [harness_error_message_total, amended_fail_condition, strOptTruthy]

/-- A truthy optional string is `some` of its default-extracted value. -/
theorem strOptTruthy_getD (o : Option String) (h : strOptTruthy o = true) :
    some (o.getD "") = o := by
  cases o with
  | none => simp [strOptTruthy] at h
  | some s => rfl

/-- A successful capture of the `[A-Z][A-Z0-9]+` run is nonempty. -/
theorem keyRunAt_ne_nil (cs : List Char) (l : List Char)
    (h : keyRunAt cs = some l) : l ≠ [] := by
  cases cs with
  | nil => exact absurd h (by simp [keyRunAt])
  | cons c rest =>
      simp only [keyRunAt] at h
      split at h
      · split at h
        · exact absurd h (by simp)
        · cases h
          exact List.cons_ne_nil _ _
      · exact absurd h (by simp)

/-- A key found by the marker search is a nonempty string. -/
theorem searchMarkerKey_truthy (marker cs : List Char) (k : String)
    (h : searchMarkerKey marker cs = some k) : (k == "") = false := by
  induction cs with
  | nil => exact absurd h (by simp [searchMarkerKey])
  | cons c rest ih =>
      simp only [searchMarkerKey] at h
      split at h
      · cases hk : keyRunAt ((c :: rest).drop marker.length) with
        | some run =>
            rw [hk] at h
            cases h
            have hne := keyRunAt_ne_nil _ _ hk
            rw [beq_eq_false_iff_ne]
            intro he
            exact hne (congrArg String.data he)
        | none =>
            rw [hk] at h
            exact ih h
      · exact ih h

/-- An extracted Jira project key is a nonempty (truthy) string. -/
theorem extract_jira_key_truthy (url : String) (k : String)
    (h : extract_jira_key url = some k) : (k == "") = false := by
  unfold extract_jira_key at h
  cases h1 : searchMarkerKey "/projects/".toList url.toList with
  | some k1 =>
      rw [h1] at h
      cases h
      exact searchMarkerKey_truthy _ _ _ h1
  | none =>
      rw [h1] at h
      exact searchMarkerKey_truthy _ _ _ h

/-- Setting the parsed start date never touches the external identifier. -/
theorem set_parsed_start_date_precursive_id (p : Project) (sOpt : Option String) :
    (set_parsed_start_date p sOpt).precursive_id = p.precursive_id := by
  cases sOpt with
  | none => rfl
  | some s =>
      show (if !(s == "") && p.start_date.isNone then
          match parseStrptimeYMD s with
          | some d => { p with start_date := some d }
          | none => p
        else p).precursive_id = p.precursive_id
      by_cases hc : (!(s == "") && p.start_date.isNone) = true
      · rw [if_pos hc]
        cases parseStrptimeYMD s <;> rfl
      · rw [if_neg hc]

/-- Setting the parsed end date never touches the external identifier. -/
theorem set_parsed_end_date_precursive_id (p : Project) (sOpt : Option String) :
    (set_parsed_end_date p sOpt).precursive_id = p.precursive_id := by
  cases sOpt with
  | none => rfl
  | some s =>
      show (if !(s == "") && p.end_date.isNone then
          match parseStrptimeYMD s with
          | some d => { p with end_date := some d }
          | none => p
        else p).precursive_id = p.precursive_id
      by_cases hc : (!(s == "") && p.end_date.isNone) = true
      · rw [if_pos hc]
        cases parseStrptimeYMD s <;> rfl
      · rw [if_neg hc]

/-- Copying delivery dates never touches the external identifier. -/
theorem sync_precursive_dates_precursive_id (p : Project) (pp : PrecursiveProject) :
    (sync_precursive_dates p pp).precursive_id = p.precursive_id := by
  unfold sync_precursive_dates
  rw [set_parsed_end_date_precursive_id, set_parsed_start_date_precursive_id]

end HelperLemmas

/-- Claim C2: along every operation sequence the system performs on a ledger
row (`create_job`, then at most one `mark_running`, then at most one of
`mark_succeeded` or `mark_failed`), the status only moves forward along
queued, running, succeeded or failed, no state follows a terminal one, and
the completion timestamp is set exactly on the terminal states. -/
theorem C2_ledger_status_monotonic (pid uid t0 : Nat) (k : SyncJobType)
    (running : Option Nat) (fin : Option TerminalChoice) :
    List.Chain'
      (fun a b => statusRank a.status < statusRank b.status
        ∧ isTerminalStatus a.status = false)
      (ledger_job_trace pid k uid t0 running fin)
    ∧ ∀ j ∈ ledger_job_trace pid k uid t0 running fin,
        (j.completed_at.isSome ↔ isTerminalStatus j.status = true) := by
  cases running with
  | none =>
      cases fin with
      | none =>
          simp [ledger_job_trace, create_job, apply_mark_running, apply_terminal,
            apply_mark_succeeded, apply_mark_failed, statusRank, isTerminalStatus]
      | some op =>
          cases op <;>
            simp [ledger_job_trace, create_job, apply_mark_running, apply_terminal,
              apply_mark_succeeded, apply_mark_failed, statusRank, isTerminalStatus]
  | some t =>
      cases fin with
      | none =>
          simp [ledger_job_trace, create_job, apply_mark_running, apply_terminal,
            apply_mark_succeeded, apply_mark_failed, statusRank, isTerminalStatus]
      | some op =>
          cases op <;>
            simp [ledger_job_trace, create_job, apply_mark_running, apply_terminal,
              apply_mark_succeeded, apply_mark_failed, statusRank, isTerminalStatus]

/-- Claim C3 (code bug): `sync_jira_data` computes the incremental cutoff as
the last successful completion time minus the 5-minute backfill and passes it
to `jira.get_project_issues` through the keyword `updated_since`, but this
revision of `JiraClient.get_project_issues` declares no such parameter and
builds a JQL query with no updated-since clause, so the call raises
`TypeError` and no incremental bound is ever requested; the orchestrator
converts the exception into a failed sync result. -/
theorem C3_incremental_window_not_requested :
    sync_cutoff 100 = 100 - INCREMENTAL_SYNC_BACKFILL_MINUTES
    ∧ "updated_since" ∈ syncServiceGetIssuesKwargNames
    ∧ "updated_since" ∉ getProjectIssuesParamNames
    ∧ unexpectedGetIssuesKwargs = ["updated_since"]
    ∧ get_project_issues_jql "PROJ" = "project = PROJ ORDER BY created DESC"
    ∧ (sync_jira_data { id := 1, jira_project_key := some "PROJ" } [] []).1.success
        = false
    ∧ (sync_jira_data { id := 1, jira_project_key := some "PROJ" } [] []).1.error
        ≠ none := by
  refine ⟨rfl, by decide, by decide, by decide, rfl, rfl, by decide⟩

/-- Claim C4 (code bug): the issue upsert never inserts in this revision.
The `JiraIssue` dataclass declares no `id` attribute, yet both upsert
branches evaluate `issue.id`; the insert branch therefore raises before the
`ActionItem` is constructed (a fresh issue produces no row at all), and the
update branch applies only the four mutations preceding the raise, leaving
`jira_id` and `due_date` untouched. -/
theorem C4_upsert_insert_never_happens :
    "id" ∉ jiraIssueFieldNames
    ∧ sync_issues_loop []
        [{ key := "PROJ-1", summary := "Task one", status := "To Do",
           issue_type := "Task", priority := some "High",
           due_date := some "2024-01-15" }] = []
    ∧ sync_issues_loop
        [{ project_id := 7, title := "old title", status := .noStatus,
           jira_key := some "PROJ-1" }]
        [{ key := "PROJ-1", summary := "Task one", status := "To Do",
           issue_type := "Task", assignee := some "ana", priority := some "High",
           due_date := some "2024-01-15" }] =
        [{ project_id := 7, title := "Task one", status := .toDo,
           assignee := some "ana", priority := .high,
           jira_key := some "PROJ-1" }] := by
  refine ⟨by decide, rfl, by decide⟩

/-- Claim C5 (code bug): a batch of three issues, one of them carrying an
unparseable due date, does not end with the other two upserted and a
successful result; in this revision the fetch call itself raises `TypeError`
(the client has no `updated_since` parameter), the handler marks the sync
failed, and no issue is upserted at all — and even the transcribed upsert
loop inserts nothing because every issue evaluates the missing attribute
`issue.id`. -/
theorem C5_batch_not_upserted_and_sync_fails :
    (sync_jira_data { id := 3, jira_project_key := some "PROJ" }
        [{ key := "PROJ-1", summary := "A", status := "To Do",
           issue_type := "Task", due_date := some "2024-01-10" },
         { key := "PROJ-2", summary := "B", status := "To Do",
           issue_type := "Task", due_date := some "not-a-date" },
         { key := "PROJ-3", summary := "C", status := "Done",
           issue_type := "Task", due_date := some "2024-01-12" }] []).1 =
      { success := false,
        error := some
          "TypeError: get_project_issues() got an unexpected keyword argument updated_since" }
    ∧ (sync_jira_data { id := 3, jira_project_key := some "PROJ" }
        [{ key := "PROJ-1", summary := "A", status := "To Do",
           issue_type := "Task", due_date := some "2024-01-10" },
         { key := "PROJ-2", summary := "B", status := "To Do",
           issue_type := "Task", due_date := some "not-a-date" },
         { key := "PROJ-3", summary := "C", status := "Done",
           issue_type := "Task", due_date := some "2024-01-12" }] []).2.2 = []
    ∧ sync_issues_loop []
        [{ key := "PROJ-1", summary := "A", status := "To Do",
           issue_type := "Task", due_date := some "2024-01-10" },
         { key := "PROJ-2", summary := "B", status := "To Do",
           issue_type := "Task", due_date := some "not-a-date" },
         { key := "PROJ-3", summary := "C", status := "Done",
           issue_type := "Task", due_date := some "2024-01-12" }] = [] := by
  refine ⟨rfl, rfl, rfl⟩

/-- Claim C8 (code bug): when the remote system returns no financial data and
no risks, and the project has no cached budget and no local risks, this
revision of `sync_precursive_data` fabricates nothing: the budget fields stay
null, no risk is created and the result reports zero risks, contradicting the
documented synthetic-data fallback. -/
theorem C8_no_synthetic_fallback :
    sync_precursive_data
        { id := 4, precursive_id := some "a2X000000000001AAA" }
        []
        (fun _ => none)
        (some { project_id := "a2X000000000001AAA", currency := "USD" })
        []
        (2024, 5, 1) =
      ({ success := true, financials_updated := false, risks_count := 0,
         message := none },
       { id := 4, precursive_id := some "a2X000000000001AAA" },
       []) := by
  rfl

/-- Claim C1: when no queued or running job of the same (project, kind)
exists, the first `enqueue_sync_job` call creates a job, returns it with the
dedup flag false, and schedules exactly one background task; while that job
is still queued (or has been marked running), a second call with the same
(project, kind) returns the same job id with the dedup flag true and
schedules nothing. -/
theorem C1_enqueue_dedup (st : LedgerStore) (pid uid t1 t2 t3 : Nat)
    (k : SyncJobType) (runFirst : Bool) (hwf : st.WF)
    (h : get_running_job st pid k = none) :
    (enqueue_sync_job st pid k uid t1).1.2 = false
    ∧ (enqueue_sync_job st pid k uid t1).2.2 =
        [((enqueue_sync_job st pid k uid t1).1.1.id, k)]
    ∧ ∀ st2,
        st2 = (if runFirst then
            mark_running (enqueue_sync_job st pid k uid t1).2.1
              (enqueue_sync_job st pid k uid t1).1.1.id t2
          else (enqueue_sync_job st pid k uid t1).2.1) →
        (enqueue_sync_job st2 pid k uid t3).1.2 = true
        ∧ (enqueue_sync_job st2 pid k uid t3).1.1.id =
            (enqueue_sync_job st pid k uid t1).1.1.id
        ∧ (enqueue_sync_job st2 pid k uid t3).2.2 = [] := by
  have hfil : st.jobs.filter (matchesActive pid k) = [] := by
    have h2 := h
    unfold get_running_job at h2
    exact List.head?_eq_none_iff.mp h2
  have e1 : enqueue_sync_job st pid k uid t1 =
      (({ id := st.nextId, project_id := pid, job_type := k, status := .queued,
          created_at := t1, requested_by_user_id := some uid }, false),
       { jobs := st.jobs ++
            [{ id := st.nextId, project_id := pid, job_type := k,
               status := .queued, created_at := t1,
               requested_by_user_id := some uid }],
         nextId := st.nextId + 1 },
       [(st.nextId, k)]) := by
    simp [enqueue_sync_job, enqueue_or_get_existing, h, create_job]
  refine ⟨by rw [e1], by rw [e1], ?_⟩
  intro st2 hst2
  rw [e1] at hst2
  have hmatch : ∀ s : SyncJobStatus, isActiveStatus s = true →
      ∀ sa co er it,
      matchesActive pid k
        { id := st.nextId, project_id := pid, job_type := k, status := s,
          created_at := t1, started_at := sa, completed_at := co,
          requested_by_user_id := some uid, error := er, items_synced := it }
        = true := by
    intro s hs sa co er it
    simp [matchesActive, hs]
  have hq : ∃ j2, get_running_job st2 pid k = some j2 ∧ j2.id = st.nextId := by
    cases runFirst with
    | false =>
        rw [if_neg (by simp)] at hst2
        subst hst2
        refine ⟨{ id := st.nextId, project_id := pid, job_type := k,
                  status := .queued, created_at := t1,
                  requested_by_user_id := some uid }, ?_, rfl⟩
        unfold get_running_job
        simp only [List.filter_append, hfil, List.nil_append]
        rw [@List.filter_cons_of_pos SyncJob (matchesActive pid k) _ _
          (hmatch .queued rfl none none none 0)]
        rfl
    | true =>
        rw [if_pos rfl] at hst2
        subst hst2
        refine ⟨apply_mark_running t2
          { id := st.nextId, project_id := pid, job_type := k,
            status := .queued, created_at := t1,
            requested_by_user_id := some uid },
          ?_, rfl⟩
        unfold get_running_job mark_running updateJobIn
        simp only [List.map_append]
        rw [map_update_id_noop st.jobs st.nextId _
          (fun j hj => Nat.ne_of_lt (hwf j hj))]
        rw [show List.map (fun j => if j.id == st.nextId
              then apply_mark_running t2 j else j)
            [{ id := st.nextId, project_id := pid, job_type := k,
               status := SyncJobStatus.queued, created_at := t1,
               requested_by_user_id := some uid }]
          = [apply_mark_running t2
              { id := st.nextId, project_id := pid, job_type := k,
                status := SyncJobStatus.queued, created_at := t1,
                requested_by_user_id := some uid }] from by simp]
        simp only [List.filter_append, hfil, List.nil_append]
        rw [@List.filter_cons_of_pos SyncJob (matchesActive pid k) _ _
          (by simp [apply_mark_running, matchesActive, isActiveStatus])]
        rfl
  obtain ⟨j2, hj2, hid2⟩ := hq
  rw [e1]
  have e2 : enqueue_sync_job st2 pid k uid t3 = ((j2, true), st2, []) := by
    simp [enqueue_sync_job, enqueue_or_get_existing, hj2]
  rw [e2]
  exact ⟨rfl, hid2, rfl⟩

/-- Witness for claim C1: the empty ledger satisfies both hypotheses, and the
first call reports a non-deduplicated job. -/
theorem C1_enqueue_dedup_witness :
    ({ jobs := [], nextId := 0 } : LedgerStore).WF
    ∧ get_running_job { jobs := [], nextId := 0 } 1 SyncJobType.jira = none
    ∧ (enqueue_sync_job { jobs := [], nextId := 0 } 1 SyncJobType.jira 7 10).1.2
        = false :=
  ⟨fun j hj => absurd hj (List.not_mem_nil j), rfl,
   (C1_enqueue_dedup { jobs := [], nextId := 0 } 1 7 10 11 12 SyncJobType.jira true
     (fun j hj => absurd hj (List.not_mem_nil j)) rfl).1⟩

/-- Claim C6 counterexample: with `total_fte_days = 0` and
`fte_day_price = 500` both fields are present, yet `compute_total_budget`
returns `None` rather than their product, because strategy 1 keeps the
product only when it is positive. -/
theorem C6_counterexample :
    ({ project_id := "c", currency := "USD", total_fte_days := some 0,
       fte_day_price := some 500 } : PrecursiveFinancials).total_fte_days = some 0
    ∧ ({ project_id := "c", currency := "USD", total_fte_days := some 0,
         fte_day_price := some 500 } : PrecursiveFinancials).fte_day_price = some 500
    ∧ compute_total_budget
        { project_id := "c", currency := "USD", total_fte_days := some 0,
          fte_day_price := some 500 } = none := by
  refine ⟨rfl, rfl, ?_⟩
  norm_num [compute_total_budget, roleDaysSum]

/-- Claim C6 as amended: `compute_total_budget` returns
`total_fte_days * fte_day_price` when both are present and the product is
positive; when the first strategy does not apply, it returns the per-role
day sum times the rate when the rate is present and the sum is positive;
it returns `None` whenever the rate is missing, so a missing rate is never
multiplied.  `compute_spent_budget` is total minus remaining exactly when
both are known.  Concretely, 10 FTE-days at rate 500 give 5000; a record
with only `remaining_budget = 200` gives no total, yet the financial sync
step still applies `remaining_budget = 200` to the project. -/
theorem C6_financial_derivation (f : PrecursiveFinancials) (d price t r : ℚ) :
    (f.total_fte_days = some d → f.fte_day_price = some price → 0 < d * price →
        compute_total_budget f = some (d * price))
    ∧ (f.total_fte_days = none → f.fte_day_price = some price →
        0 < roleDaysSum f → compute_total_budget f = some (roleDaysSum f * price))
    ∧ (f.fte_day_price = none → compute_total_budget f = none)
    ∧ (compute_total_budget f = some t → f.remaining_budget = some r →
        compute_spent_budget f = some (t - r))
    ∧ (compute_total_budget f = none → compute_spent_budget f = none)
    ∧ (f.remaining_budget = none → compute_spent_budget f = none)
    ∧ compute_total_budget
        { project_id := "p1", currency := "USD",
          total_fte_days := some 10, fte_day_price := some 500 } = some 5000
    ∧ compute_total_budget
        { project_id := "p2", currency := "USD",
          remaining_budget := some 200 } = none
    ∧ (financial_step { id := 1 }
        (some { project_id := "p2", currency := "USD",
                remaining_budget := some 200 })).1.remaining_budget = some 200 := by
  refine ⟨?_, ?_, ?_, ?_, ?_, ?_, ?_, rfl, rfl⟩
  · intro hd hp hpos
    simp [compute_total_budget, hd, hp, hpos]
  · intro hd hp hsum
    simp [compute_total_budget, hd, hp, hsum]
  · intro hp
    cases htd : f.total_fte_days <;> simp [compute_total_budget, hp, htd]
  · intro ht hr
    simp [compute_spent_budget, ht, hr]
  · intro ht
    simp [compute_spent_budget, ht]
  · intro hr
    cases htot : compute_total_budget f <;> simp [compute_spent_budget, hr, htot]
  · norm_num [compute_total_budget, roleDaysSum]

/-- Witness for claim C6: the first strategy applied at 10 FTE-days and rate
500. -/
theorem C6_financial_derivation_witness :
    compute_total_budget
      { project_id := "w", currency := "USD",
        total_fte_days := some 10, fte_day_price := some 500 } = some (10 * 500) :=
  (C6_financial_derivation
    { project_id := "w", currency := "USD",
      total_fte_days := some 10, fte_day_price := some 500 } 10 500 0 0).1
    rfl rfl (by norm_num)

/-- Claim C7 counterexample: a sub-result whose error string is present but
empty (`some ""`, which is non-null) makes the harness mark the job
`succeeded`, because `run_sync_job` tests Python truthiness rather than
nullness. -/
theorem C7_counterexample :
    get_job_by_id
      (run_sync_job
        { jobs := [{ id := 1, project_id := 2, job_type := SyncJobType.jira,
                     status := SyncJobStatus.queued, created_at := 0 }],
          nextId := 2 }
        1 (.jiraDone { success := false, error := some "" }) 5 6) 1 =
      some { id := 1, project_id := 2, job_type := .jira, status := .succeeded,
             created_at := 0, started_at := some 5, completed_at := some 6 }
    ∧ ({ success := false, error := some "" } : JiraSyncResult).error ≠ none := by
  exact ⟨rfl, by simp⟩

/-- Claim C7 as amended: for every execution of `run_sync_job` on an existing
job id, the job is marked running (its start timestamp is set) and always
ends in a terminal status with a completion timestamp; it is marked failed,
with the harness error string recorded, exactly when some sub-result carries
a truthy (non-null, non-empty) error string or the routine raised with a
non-empty message, and marked succeeded otherwise. -/
theorem C7_harness_terminal (st : LedgerStore) (job_id : Nat)
    (outcome : OrchOutcome) (t_run t_done : Nat) (j0 : SyncJob)
    (h : get_job_by_id st job_id = some j0) :
    ∃ j, get_job_by_id (run_sync_job st job_id outcome t_run t_done) job_id = some j
      ∧ isTerminalStatus j.status = true
      ∧ j.started_at = some t_run
      ∧ j.completed_at = some t_done
      ∧ (j.status = .failed ↔ amended_fail_condition outcome = true)
      ∧ (j.status = .failed → j.error = harness_error_message_total outcome) := by
  unfold run_sync_job
  rw [h]
  by_cases hem : strOptTruthy (harness_error_message_total outcome) = true
  · rw [if_pos hem]
    refine ⟨apply_mark_failed ((harness_error_message_total outcome).getD "")
      (harness_items_synced outcome) t_done (apply_mark_running t_run j0), ?_,
      rfl, rfl, rfl, ?_, ?_⟩
    · show get_job_by_id
          (mark_failed (mark_running st job_id t_run) job_id
            ((harness_error_message_total outcome).getD "")
            (harness_items_synced outcome) t_done) job_id = _
      unfold mark_failed mark_running
      rw [get_job_by_id_updateJobIn (updateJobIn st job_id (apply_mark_running t_run))
          job_id
          (apply_mark_failed ((harness_error_message_total outcome).getD "")
            (harness_items_synced outcome) t_done)
          (fun j => rfl),
        get_job_by_id_updateJobIn st job_id (apply_mark_running t_run) (fun j => rfl),
        h]
      rfl
    · constructor
      · intro _
        rw [← strOptTruthy_harness_error]
        exact hem
      · intro _
        rfl
    · intro _
      show some ((harness_error_message_total outcome).getD "")
          = harness_error_message_total outcome
      exact strOptTruthy_getD _ hem
  · rw [if_neg hem]
    refine ⟨apply_mark_succeeded (harness_items_synced outcome) t_done
      (apply_mark_running t_run j0), ?_, rfl, rfl, rfl, ?_, ?_⟩
    · show get_job_by_id
          (mark_succeeded (mark_running st job_id t_run) job_id
            (harness_items_synced outcome) t_done) job_id = _
      unfold mark_succeeded mark_running
      rw [get_job_by_id_updateJobIn (updateJobIn st job_id (apply_mark_running t_run))
          job_id
          (apply_mark_succeeded (harness_items_synced outcome) t_done)
          (fun j => rfl),
        get_job_by_id_updateJobIn st job_id (apply_mark_running t_run) (fun j => rfl),
        h]
      rfl
    · constructor
      · intro hcontra
        exact absurd hcontra (by simp [apply_mark_succeeded, apply_mark_running])
      · intro hcond
        rw [← strOptTruthy_harness_error] at hcond
        exact absurd hcond hem
    · intro hcontra
      exact absurd hcontra (by simp [apply_mark_succeeded, apply_mark_running])

/-- Witness for claim C7: a queued job marked failed by a raised exception
with a non-empty message. -/
theorem C7_harness_terminal_witness :
    get_job_by_id
      { jobs := [{ id := 1, project_id := 2, job_type := SyncJobType.jira,
                   status := SyncJobStatus.queued, created_at := 0 }],
        nextId := 2 } 1 =
      some { id := 1, project_id := 2, job_type := SyncJobType.jira,
             status := SyncJobStatus.queued, created_at := 0 }
    ∧ ∃ j, get_job_by_id
        (run_sync_job
          { jobs := [{ id := 1, project_id := 2, job_type := SyncJobType.jira,
                       status := SyncJobStatus.queued, created_at := 0 }],
            nextId := 2 }
          1 (.raised "boom") 5 6) 1 = some j
      ∧ isTerminalStatus j.status = true
      ∧ j.started_at = some 5
      ∧ j.completed_at = some 6
      ∧ (j.status = .failed ↔ amended_fail_condition (.raised "boom") = true)
      ∧ (j.status = .failed →
          j.error = harness_error_message_total (.raised "boom")) :=
  ⟨rfl,
   C7_harness_terminal
     { jobs := [{ id := 1, project_id := 2, job_type := SyncJobType.jira,
                  status := SyncJobStatus.queued, created_at := 0 }],
       nextId := 2 }
     1 (.raised "boom") 5 6
     { id := 1, project_id := 2, job_type := SyncJobType.jira,
       status := SyncJobStatus.queued, created_at := 0 }
     rfl⟩

/-- Claim C9 counterexample: a project whose `jira_project_key` is the empty
string — set, and non-null — still has the key re-derived and overwritten
from the URL, because the guard tests Python truthiness, not nullness. -/
theorem C9_counterexample :
    jira_key_extract_step
        { id := 9, jira_project_key := some "",
          jira_url := some "https://example.atlassian.net/projects/ABC/summary" } =
      { id := 9, jira_project_key := some "ABC",
        jira_url := some "https://example.atlassian.net/projects/ABC/summary" }
    ∧ (some "" : Option String) ≠ none := by
  exact ⟨rfl, by simp⟩

/-- Claim C9 as amended: external identifiers are resolved from a stored URL
only when the stored identifier is falsy (null or empty) and a URL is
present; a sync on a project whose identifier is already truthy leaves the
identifier unchanged (for the delivery id, both the URL-resolution step and
the details step preserve it), and the Jira key extraction step is
idempotent: running it a second time changes nothing. -/
theorem C9_identifier_resolution (p : Project)
    (lookup : String → Option PrecursiveProject) :
    (strOptTruthy p.jira_project_key = true → jira_key_extract_step p = p)
    ∧ jira_key_extract_step (jira_key_extract_step p) = jira_key_extract_step p
    ∧ (strOptTruthy p.precursive_id = true →
        precursive_resolve_step p lookup = (p, none)
        ∧ ∀ pp0, (precursive_details_step p pp0 lookup).1.precursive_id
            = p.precursive_id) := by
  refine ⟨?_, ?_, ?_⟩
  · intro hkey
    unfold jira_key_extract_step
    rw [if_neg (by simp [hkey])]
  · unfold jira_key_extract_step
    by_cases hg : (!strOptTruthy p.jira_project_key && strOptTruthy p.jira_url) = true
    · rw [if_pos hg]
      cases he : extract_jira_key (p.jira_url.getD "") with
      | none =>
          rw [if_pos hg, he]
      | some kk =>
          have hkk := extract_jira_key_truthy _ _ he
          rw [if_neg (by simp [strOptTruthy, hkk])]
    · rw [if_neg hg, if_neg hg]
  · intro hid
    constructor
    · unfold precursive_resolve_step
      rw [if_neg (by simp [hid])]
    · intro pp0
      unfold precursive_details_step
      by_cases hg : (strOptTruthy p.precursive_id && pp0.isNone) = true
      · rw [if_pos hg]
        cases hl : get_project_by_id lookup (p.precursive_id.getD "") with
        | none => rfl
        | some pp =>
            show (if strOptTruthy pp.client_name
                then { sync_precursive_dates p pp with client_name := pp.client_name }
                else sync_precursive_dates p pp).precursive_id = p.precursive_id
            by_cases hc : strOptTruthy pp.client_name = true
            · rw [if_pos hc]
              show (sync_precursive_dates p pp).precursive_id = p.precursive_id
              exact sync_precursive_dates_precursive_id p pp
            · rw [if_neg hc]
              exact sync_precursive_dates_precursive_id p pp
      · rw [if_neg hg]

/-- Witness for claim C9: a project with both identifiers already set to
truthy values is left untouched by the extraction and resolution steps. -/
theorem C9_identifier_resolution_witness :
    strOptTruthy (some "ABC") = true
    ∧ jira_key_extract_step
        { id := 9, jira_project_key := some "ABC",
          precursive_id := some "a2X000000000001AAA" } =
      { id := 9, jira_project_key := some "ABC",
        precursive_id := some "a2X000000000001AAA" }
    ∧ precursive_resolve_step
        { id := 9, jira_project_key := some "ABC",
          precursive_id := some "a2X000000000001AAA" } (fun _ => none) =
      ({ id := 9, jira_project_key := some "ABC",
         precursive_id := some "a2X000000000001AAA" }, none) :=
  ⟨rfl,
   (C9_identifier_resolution
     { id := 9, jira_project_key := some "ABC",
       precursive_id := some "a2X000000000001AAA" } (fun _ => none)).1 rfl,
   ((C9_identifier_resolution
     { id := 9, jira_project_key := some "ABC",
       precursive_id := some "a2X000000000001AAA" } (fun _ => none)).2.2 rfl).1⟩

/-- Claim C10: when every field tested by `has_any_financial_data` is null
or exactly zero, the truthiness-based test reports no data, and the
financial step of `sync_precursive_data` leaves the project — including
every cached financial field — entirely unchanged. -/
theorem C10_zero_financials_frame (p : Project) (f : PrecursiveFinancials)
    (h : ∀ o ∈ financialSignalFields f, o = none ∨ o = some 0) :
    has_any_financial_data f = false
    ∧ financial_step p (some f) = (p, false, none) := by
  have hfalse : has_any_financial_data f = false := by
    unfold has_any_financial_data
    rw [List.any_eq_false]
    intro o ho
    rcases h o ho with rfl | rfl <;> simp [qOptTruthy]
  refine ⟨hfalse, ?_⟩
  unfold financial_step
  simp [hfalse]

/-- Witness for claim C10: a record whose only populated field is
`remaining_budget = 0.0` counts as carrying no financial data and leaves the
project unchanged. -/
theorem C10_zero_financials_frame_witness :
    (∀ o ∈ financialSignalFields
        { project_id := "w", currency := "USD", remaining_budget := some 0 },
      o = none ∨ o = some 0)
    ∧ has_any_financial_data
        { project_id := "w", currency := "USD", remaining_budget := some 0 } = false
    ∧ financial_step { id := 11 }
        (some { project_id := "w", currency := "USD",
                remaining_budget := some 0 }) =
      ({ id := 11 }, false, none) :=
  ⟨by simp [financialSignalFields],
   (C10_zero_financials_frame { id := 11 }
     { project_id := "w", currency := "USD", remaining_budget := some 0 }
     (by simp [financialSignalFields])).1,
   (C10_zero_financials_frame { id := 11 }
     { project_id := "w", currency := "USD", remaining_budget := some 0 }
     (by simp [financialSignalFields])).2⟩

end PmApp
